import Mathlib

/-!
Shallow embedding of the financial-math core of
`src/BWIAFinancialCalculator2/finance_utilities_Version1.ts`.

JavaScript numbers are modelled by real numbers; `x ** y` with a possibly
fractional exponent becomes `Real.rpow`, integer-valued exponents that the
model fixes as naturals become `Monoid.npow`.  Optional parameters are
`Option ℝ`; a JS truthiness test `if (x && y && z)` on optional numbers
becomes the proposition `truthy x ∧ truthy y ∧ truthy z`, where absent and
zero values are both falsy, exactly as in the source.  A `throw` of
"Insufficient parameters" is modelled by returning `none`.  Division by
zero follows Lean's total-division convention `a / 0 = 0` (JavaScript
would produce `NaN`/`Infinity`); theorems that touch a division-by-zero
point spell out what the embedding yields there.
-/

open Finset

/-- JS truthiness of an optional numeric argument: `undefined` and `0` are
falsy, every other number is truthy. -/
def truthy : Option ℝ → Prop
  | none => False
  | some x => x ≠ 0

/-- The numeric value of an optional argument, `0` when absent (matches the
source's `rate || 0` reads; inside a branch guarded by `truthy` it is the
argument itself). -/
def optVal (o : Option ℝ) : ℝ := o.getD 0

@[simp] lemma truthy_none : ¬ truthy none := fun h => h

@[simp] lemma truthy_some (x : ℝ) : truthy (some x) ↔ x ≠ 0 := Iff.rfl

@[simp] lemma optVal_some (x : ℝ) : optVal (some x) = x := rfl

@[simp] lemma optVal_none : optVal none = 0 := rfl

/-- `interface InterestRateConversion` (lines 3–9). -/
structure InterestRateConversion where
  simple : ℝ
  effectiveAnnual : ℝ
  nominal : ℝ
  effectivePeriodic : ℝ
  forceOfInterest : ℝ

/-- `convertFromSimple` (lines 12–40). -/
noncomputable def convertFromSimple (simpleRate timePeriod : ℝ)
    (compoundingFreq : ℝ := 1) : InterestRateConversion :=
  let r := simpleRate / 100
  let t := timePeriod
  let m := compoundingFreq
  let effectiveAnnual := (1 + r * t) ^ ((1 : ℝ) / t) - 1
  let nominal := m * ((1 + r * t) ^ ((1 : ℝ) / (m * t)) - 1)
  let effectivePeriodic := (1 + r * t) ^ ((1 : ℝ) / (m * t)) - 1
  let forceOfInterest := Real.log (1 + r * t) / t
  { simple := simpleRate
    effectiveAnnual := effectiveAnnual * 100
    nominal := nominal * 100
    effectivePeriodic := effectivePeriodic * 100
    forceOfInterest := forceOfInterest * 100 }

/-- `convertFromEffectiveAnnual` (lines 43–71). -/
noncomputable def convertFromEffectiveAnnual (effectiveRate : ℝ)
    (compoundingFreq : ℝ := 1) (timePeriod : ℝ := 1) : InterestRateConversion :=
  let r := effectiveRate / 100
  let m := compoundingFreq
  let t := timePeriod
  let simple := ((1 + r) ^ t - 1) / t
  let nominal := m * ((1 + r) ^ ((1 : ℝ) / m) - 1)
  let effectivePeriodic := (1 + r) ^ ((1 : ℝ) / m) - 1
  let forceOfInterest := Real.log (1 + r)
  { simple := simple * 100
    effectiveAnnual := effectiveRate
    nominal := nominal * 100
    effectivePeriodic := effectivePeriodic * 100
    forceOfInterest := forceOfInterest * 100 }

/-- `interface SimpleInterestResult` (lines 108–114). -/
structure SimpleInterestResult where
  principal : ℝ
  rate : ℝ
  time : ℝ
  interest : ℝ
  futureValue : ℝ

open Classical in
/-- `calculateSimpleInterest` (lines 116–170): four truthiness-guarded
branches tried in order, `none` models the final `throw`. -/
noncomputable def calculateSimpleInterest (principal rate time futureValue : Option ℝ) :
    Option SimpleInterestResult :=
  if truthy principal ∧ truthy rate ∧ truthy time then
    let interest := optVal principal * (optVal rate / 100) * optVal time
    some { principal := optVal principal, rate := optVal rate, time := optVal time
           interest := interest, futureValue := optVal principal + interest }
  else if truthy futureValue ∧ truthy rate ∧ truthy time then
    let calculatedPrincipal := optVal futureValue / (1 + (optVal rate / 100) * optVal time)
    let interest := optVal futureValue - calculatedPrincipal
    some { principal := calculatedPrincipal, rate := optVal rate, time := optVal time
           interest := interest, futureValue := optVal futureValue }
  else if truthy principal ∧ truthy futureValue ∧ truthy time then
    let calculatedRate := ((optVal futureValue - optVal principal) /
      (optVal principal * optVal time)) * 100
    some { principal := optVal principal, rate := calculatedRate, time := optVal time
           interest := optVal futureValue - optVal principal, futureValue := optVal futureValue }
  else if truthy principal ∧ truthy rate ∧ truthy futureValue then
    let calculatedTime := (optVal futureValue - optVal principal) /
      (optVal principal * (optVal rate / 100))
    some { principal := optVal principal, rate := optVal rate, time := calculatedTime
           interest := optVal futureValue - optVal principal, futureValue := optVal futureValue }
  else none

/-- `interface CompoundInterestResult` (lines 173–180). -/
structure CompoundInterestResult where
  principal : ℝ
  rate : ℝ
  time : ℝ
  compoundingFreq : ℝ
  interest : ℝ
  futureValue : ℝ

open Classical in
/-- `calculateCompoundInterest` (lines 182–245): four truthiness-guarded
branches tried in order, `none` models the final `throw`.  `compoundingFreq`
is a plain (defaulted) number, never absent. -/
noncomputable def calculateCompoundInterest (principal rate time : Option ℝ)
    (compoundingFreq : ℝ := 1) (futureValue : Option ℝ := none) :
    Option CompoundInterestResult :=
  if truthy principal ∧ truthy rate ∧ truthy time then
    let r := optVal rate / 100
    let calculatedFV := optVal principal *
      (1 + r / compoundingFreq) ^ (compoundingFreq * optVal time)
    let interest := calculatedFV - optVal principal
    some { principal := optVal principal, rate := optVal rate, time := optVal time
           compoundingFreq := compoundingFreq, interest := interest
           futureValue := calculatedFV }
  else if truthy futureValue ∧ truthy rate ∧ truthy time then
    let r := optVal rate / 100
    let calculatedPrincipal := optVal futureValue /
      ((1 + r / compoundingFreq) ^ (compoundingFreq * optVal time))
    let interest := optVal futureValue - calculatedPrincipal
    some { principal := calculatedPrincipal, rate := optVal rate, time := optVal time
           compoundingFreq := compoundingFreq, interest := interest
           futureValue := optVal futureValue }
  else if truthy principal ∧ truthy futureValue ∧ truthy time then
    let calculatedRate := compoundingFreq *
      ((optVal futureValue / optVal principal) ^
        ((1 : ℝ) / (compoundingFreq * optVal time)) - 1) * 100
    some { principal := optVal principal, rate := calculatedRate, time := optVal time
           compoundingFreq := compoundingFreq
           interest := optVal futureValue - optVal principal
           futureValue := optVal futureValue }
  else if truthy principal ∧ truthy rate ∧ truthy futureValue then
    let r := optVal rate / 100
    let calculatedTime := Real.log (optVal futureValue / optVal principal) /
      (compoundingFreq * Real.log (1 + r / compoundingFreq))
    some { principal := optVal principal, rate := optVal rate, time := calculatedTime
           compoundingFreq := compoundingFreq
           interest := optVal futureValue - optVal principal
           futureValue := optVal futureValue }
  else none

/-- `interface Problem64Result` (lines 248–255). -/
structure Problem64Result where
  firstPayment : ℝ
  effectiveAnnualRate : ℝ
  monthlyEffectiveRate : ℝ
  futureValueInitial : ℝ
  targetFund : ℝ
  firstWithdrawal : ℝ

/-- `Math.ceil(month / 12)` for a (1-indexed) month count, as used by the
two summation loops of `solveProblem64`. -/
def yearNumber (month : ℕ) : ℕ := (month + 11) / 12

/-- `solveProblem64` (lines 257–311).  The year counts drive the `for`
loops, so the model takes them as naturals; the loops become `Finset.sum`
over `Icc 1 (years * 12)` in ascending month order, exactly the source's
accumulation.  `monthlyInflationRate` and `realMonthlyRate` are computed by
the source (lines 277–278) but never used afterwards; they are kept here as
dead lets. -/
noncomputable def solveProblem64 (nominalRate : ℝ := 12)
    (initialInvestment : ℝ := 10000) (inflationRate : ℝ := 8)
    (firstWithdrawalValue : ℝ := 5000) (investmentYears : ℕ := 40)
    (withdrawalYears : ℕ := 20) : Problem64Result :=
  let monthlyNominalRate := nominalRate / 100 / 12
  let effectiveAnnualRate := (1 + monthlyNominalRate) ^ (12 : ℕ) - 1
  let monthlyEffectiveRate := (1 + effectiveAnnualRate) ^ ((1 : ℝ) / 12) - 1
  let futureValueInitial := initialInvestment * (1 + effectiveAnnualRate) ^ investmentYears
  let firstWithdrawal := firstWithdrawalValue * (1 + inflationRate / 100) ^ investmentYears
  let monthlyInflationRate := (1 + inflationRate / 100) ^ ((1 : ℝ) / 12) - 1
  let realMonthlyRate := (1 + monthlyEffectiveRate) / (1 + monthlyInflationRate) - 1
  let pvWithdrawals := ∑ month in Icc 1 (withdrawalYears * 12),
    firstWithdrawal * (1 + inflationRate / 100) ^ (yearNumber month - 1) /
      (1 + monthlyEffectiveRate) ^ month
  let targetFund := pvWithdrawals
  let requiredFromPayments := targetFund - futureValueInitial
  let annuityFactor := ∑ month in Icc 1 (investmentYears * 12),
    (1 + inflationRate / 100) ^ (yearNumber month - 1) *
      (1 + monthlyEffectiveRate) ^ (investmentYears * 12 - month)
  let firstPayment := requiredFromPayments / annuityFactor
  { firstPayment := firstPayment
    effectiveAnnualRate := effectiveAnnualRate * 100
    monthlyEffectiveRate := monthlyEffectiveRate * 100
    futureValueInitial := futureValueInitial
    targetFund := targetFund
    firstWithdrawal := firstWithdrawal }

/-- `interface LoanResult` (lines 314–321). -/
structure LoanResult where
  loanAmount : ℝ
  interestRate : ℝ
  termMonths : ℝ
  monthlyPayment : ℝ
  totalInterest : ℝ
  totalPayments : ℝ

/-- `calculateLoan` (lines 323–346): the general fixed-payment formula,
with no special case for `monthlyRate = 0`. -/
noncomputable def calculateLoan (loanAmount annualRate termYears : ℝ) : LoanResult :=
  let monthlyRate := annualRate / 100 / 12
  let termMonths := termYears * 12
  let monthlyPayment := loanAmount *
    (monthlyRate * (1 + monthlyRate) ^ termMonths) /
    ((1 + monthlyRate) ^ termMonths - 1)
  let totalPayments := monthlyPayment * termMonths
  let totalInterest := totalPayments - loanAmount
  { loanAmount := loanAmount
    interestRate := annualRate
    termMonths := termMonths
    monthlyPayment := monthlyPayment
    totalInterest := totalInterest
    totalPayments := totalPayments }

/-- `interface AnnuityResult` (lines 349–355). -/
structure AnnuityResult where
  payment : ℝ
  presentValue : ℝ
  futureValue : ℝ
  totalPayments : ℝ
  totalInterest : ℝ

open Classical in
/-- `calculateOrdinaryAnnuity` (lines 357–404): three truthiness-guarded
branches (`rate` and `periods` required in each), `none` models the final
`throw`.  `r` and `n` read the arguments with `|| 0` defaulting, as in the
source. -/
noncomputable def calculateOrdinaryAnnuity (payment rate periods presentValue futureValue : Option ℝ) :
    Option AnnuityResult :=
  let r := optVal rate / 100
  let n := optVal periods
  if truthy payment ∧ truthy rate ∧ truthy periods then
    let pv := optVal payment * (1 - (1 + r) ^ (-n)) / r
    let fv := optVal payment * (((1 + r) ^ n - 1) / r)
    some { payment := optVal payment, presentValue := pv, futureValue := fv
           totalPayments := optVal payment * n
           totalInterest := fv - optVal payment * n }
  else if truthy presentValue ∧ truthy rate ∧ truthy periods then
    let pmt := optVal presentValue * r / (1 - (1 + r) ^ (-n))
    let fv := pmt * (((1 + r) ^ n - 1) / r)
    some { payment := pmt, presentValue := optVal presentValue, futureValue := fv
           totalPayments := pmt * n
           totalInterest := fv - pmt * n }
  else if truthy futureValue ∧ truthy rate ∧ truthy periods then
    let pmt := optVal futureValue * r / ((1 + r) ^ n - 1)
    let pv := pmt * (1 - (1 + r) ^ (-n)) / r
    some { payment := pmt, presentValue := pv, futureValue := optVal futureValue
           totalPayments := pmt * n
           totalInterest := optVal futureValue - pmt * n }
  else none

/-! ## Theorems -/

/-- C7: every `calculateLoan` result satisfies
`totalPayments = monthlyPayment * termMonths`,
`totalInterest = totalPayments - loanAmount`, and
`termMonths = termYears * 12`, for every input triple. -/
theorem calculateLoan_invariants (loanAmount annualRate termYears : ℝ) :
    (calculateLoan loanAmount annualRate termYears).totalPayments =
      (calculateLoan loanAmount annualRate termYears).monthlyPayment *
        (calculateLoan loanAmount annualRate termYears).termMonths ∧
    (calculateLoan loanAmount annualRate termYears).totalInterest =
      (calculateLoan loanAmount annualRate termYears).totalPayments -
        (calculateLoan loanAmount annualRate termYears).loanAmount ∧
    (calculateLoan loanAmount annualRate termYears).termMonths = termYears * 12 :=
  ⟨rfl, rfl, rfl⟩

/-- C1: the code does NOT special-case `annualRate = 0`.  At
`loanAmount = 1200, annualRate = 0, termYears = 1` it evaluates the general
formula, whose denominator `(1+0)^12 - 1` is zero; under the embedding's
total division the payment comes out `0` (JavaScript would produce `NaN`),
and in particular not the claimed `loanAmount / termMonths = 100`. -/
theorem calculateLoan_zeroRate_generalFormula :
    (calculateLoan 1200 0 1).monthlyPayment = 0 ∧
    (calculateLoan 1200 0 1).monthlyPayment ≠ 1200 / (1 * 12) := by
  have h : (calculateLoan 1200 0 1).monthlyPayment = 0 := by
    show (1200 : ℝ) * (0 / 100 / 12 * (1 + 0 / 100 / 12) ^ ((1:ℝ) * 12)) /
        ((1 + 0 / 100 / 12) ^ ((1:ℝ) * 12) - 1) = 0
    norm_num
  refine ⟨h, ?_⟩
  rw [h]
  norm_num

/-- C4: when the first three arguments of `calculateSimpleInterest` are all
truthy, the first branch wins and the supplied `futureValue` argument has no
influence on the result; in particular
`calculateSimpleInterest 1000 10 5 2000` returns the branch-1 result with
`futureValue = 1500`, ignoring the supplied `2000`. -/
theorem calculateSimpleInterest_firstMatch :
    (∀ principal rate time fv fv' : Option ℝ,
      truthy principal → truthy rate → truthy time →
        calculateSimpleInterest principal rate time fv =
          calculateSimpleInterest principal rate time fv') ∧
    calculateSimpleInterest (some 1000) (some 10) (some 5) (some 2000) =
      some { principal := 1000, rate := 10, time := 5, interest := 500,
             futureValue := 1500 } := by
  constructor
  · intro p r t fv fv' hp hr ht
    have hc : truthy p ∧ truthy r ∧ truthy t := ⟨hp, hr, ht⟩
    simp only [calculateSimpleInterest]
    rw [if_pos hc, if_pos hc]
  · norm_num [calculateSimpleInterest]

/-- C4 witness: applying the first-match theorem at the concrete input
`(1000, 10, 5, 2000)`. -/
theorem calculateSimpleInterest_firstMatch_witness :
    truthy (some (1000:ℝ)) ∧ truthy (some (10:ℝ)) ∧ truthy (some (5:ℝ)) ∧
    calculateSimpleInterest (some 1000) (some 10) (some 5) (some 2000) =
      calculateSimpleInterest (some 1000) (some 10) (some 5) none :=
  ⟨by norm_num [truthy], by norm_num [truthy], by norm_num [truthy],
    calculateSimpleInterest_firstMatch.1 _ _ _ _ _
      (by norm_num [truthy]) (by norm_num [truthy]) (by norm_num [truthy])⟩

/-- C8: `calculateCompoundInterest` returns `none` (models the
"Insufficient parameters" throw) exactly when no branch has its three
required inputs truthy; in particular supplying only `time = 5` and
`compoundingFreq = 12` fails. -/
theorem calculateCompoundInterest_insufficient :
    (∀ (principal rate time : Option ℝ) (freq : ℝ) (fv : Option ℝ),
      calculateCompoundInterest principal rate time freq fv = none ↔
        ¬((truthy principal ∧ truthy rate ∧ truthy time) ∨
          (truthy fv ∧ truthy rate ∧ truthy time) ∨
          (truthy principal ∧ truthy fv ∧ truthy time) ∨
          (truthy principal ∧ truthy rate ∧ truthy fv))) ∧
    calculateCompoundInterest none none (some 5) 12 none = none := by
  constructor
  · intro p r t freq fv
    simp only [calculateCompoundInterest]
    split_ifs with h1 h2 h3 h4 <;> simp <;> tauto
  · simp [calculateCompoundInterest]

/-- C9: `calculateOrdinaryAnnuity` returns `none` (models the throw) iff
`rate` is falsy, or `periods` is falsy, or all of `payment`, `presentValue`,
`futureValue` are falsy; on every other input it returns `some` result. -/
theorem calculateOrdinaryAnnuity_insufficient
    (payment rate periods presentValue futureValue : Option ℝ) :
    calculateOrdinaryAnnuity payment rate periods presentValue futureValue = none ↔
      (¬ truthy rate ∨ ¬ truthy periods ∨
        (¬ truthy payment ∧ ¬ truthy presentValue ∧ ¬ truthy futureValue)) := by
  simp only [calculateOrdinaryAnnuity]
  split_ifs with h1 h2 h3 <;> simp <;> tauto

/-- C6: every `some` result of `calculateSimpleInterest` satisfies
`futureValue = principal + interest`, and when the first (solve-for-FV)
branch is taken additionally `interest = principal * (rate/100) * time`;
both hold exactly over the real-number model. -/
theorem calculateSimpleInterest_invariant
    (principal rate time futureValue : Option ℝ) (res : SimpleInterestResult)
    (h : calculateSimpleInterest principal rate time futureValue = some res) :
    res.futureValue = res.principal + res.interest ∧
      (truthy principal ∧ truthy rate ∧ truthy time →
        res.interest = res.principal * (res.rate / 100) * res.time) := by
  simp only [calculateSimpleInterest] at h
  split_ifs at h with h1 h2 h3 h4 <;>
    simp only [Option.some.injEq] at h <;> subst h
  · exact ⟨rfl, fun _ => rfl⟩
  · exact ⟨by dsimp only; ring, fun hc => absurd hc h1⟩
  · exact ⟨by dsimp only; ring, fun hc => absurd hc h1⟩
  · exact ⟨by dsimp only; ring, fun hc => absurd hc h1⟩

/-- C6 witness: the invariant applied to the concrete branch-1 call
`calculateSimpleInterest 1000 10 5 (absent)`. -/
theorem calculateSimpleInterest_invariant_witness :
    calculateSimpleInterest (some 1000) (some 10) (some 5) none =
      some { principal := 1000, rate := 10, time := 5, interest := 500,
             futureValue := 1500 } ∧
    (1500 : ℝ) = 1000 + 500 := by
  have h : calculateSimpleInterest (some 1000) (some 10) (some 5) none =
      some { principal := 1000, rate := 10, time := 5, interest := 500,
             futureValue := 1500 } := by
    norm_num [calculateSimpleInterest]
  refine ⟨h, ?_⟩
  simpa using (calculateSimpleInterest_invariant _ _ _ _ _ h).1

/-- C2: converting a simple rate to an effective annual rate with
`convertFromSimple` and feeding the `effectiveAnnual` field back through
`convertFromEffectiveAnnual` with the same time recovers the original rate
within `1e-9` relative tolerance (in fact exactly, over the real model). -/
theorem convert_roundtrip_simple_effectiveAnnual (r t m : ℝ)
    (hr : 0 < r) (ht : 0 < t) (hm : 0 < m) :
    |(convertFromEffectiveAnnual ((convertFromSimple r t m).effectiveAnnual) m t).simple - r|
      ≤ 1e-9 * |r| := by
  have hbase : (0:ℝ) < 1 + r / 100 * t := by positivity
  have key : (convertFromEffectiveAnnual ((convertFromSimple r t m).effectiveAnnual) m t).simple
      = r := by
    simp only [convertFromSimple, convertFromEffectiveAnnual]
    have h1 : ((1 + r / 100 * t) ^ ((1:ℝ) / t) - 1) * 100 / 100
        = (1 + r / 100 * t) ^ ((1:ℝ) / t) - 1 := by ring
    rw [h1]
    have h2 : (1 : ℝ) + ((1 + r / 100 * t) ^ ((1:ℝ) / t) - 1)
        = (1 + r / 100 * t) ^ ((1:ℝ) / t) := by ring
    rw [h2, ← Real.rpow_mul hbase.le, one_div_mul_cancel ht.ne', Real.rpow_one]
    field_simp
    ring
  rw [key]
  simp only [sub_self, abs_zero]
  positivity

/-- C2 witness: the round-trip theorem at `r = 10, t = 2, m = 4`. -/
theorem convert_roundtrip_simple_effectiveAnnual_witness :
    (0:ℝ) < 10 ∧ (0:ℝ) < 2 ∧ (0:ℝ) < 4 ∧
    |(convertFromEffectiveAnnual ((convertFromSimple 10 2 4).effectiveAnnual) 4 2).simple - 10|
      ≤ 1e-9 * |(10:ℝ)| :=
  ⟨by norm_num, by norm_num, by norm_num,
    convert_roundtrip_simple_effectiveAnnual 10 2 4 (by norm_num) (by norm_num) (by norm_num)⟩

/-- C5: the compound solver's P→FV branch composed with its FV→P branch is
the identity on the principal: feeding the computed `futureValue` back with
`principal` absent recovers `P` within `1e-6` relative tolerance (exactly,
over the real model). -/
theorem calculateCompoundInterest_roundtrip (P r t n : ℝ)
    (hP : 0 < P) (hr : 0 < r) (ht : 0 < t) (hn : 0 < n) :
    ∃ res₁ res₂ : CompoundInterestResult,
      calculateCompoundInterest (some P) (some r) (some t) n none = some res₁ ∧
      calculateCompoundInterest none (some r) (some t) n (some res₁.futureValue) = some res₂ ∧
      |res₂.principal - P| ≤ 1e-6 * |P| := by
  have hA : (0:ℝ) < (1 + r / 100 / n) ^ (n * t) :=
    Real.rpow_pos_of_pos (by positivity) _
  have hc1 : truthy (some P) ∧ truthy (some r) ∧ truthy (some t) :=
    ⟨hP.ne', hr.ne', ht.ne'⟩
  have hFV : (0:ℝ) < P * (1 + r / 100 / n) ^ (n * t) := mul_pos hP hA
  have h1 : calculateCompoundInterest (some P) (some r) (some t) n none =
      some ⟨P, r, t, n, P * (1 + r / 100 / n) ^ (n * t) - P,
        P * (1 + r / 100 / n) ^ (n * t)⟩ := by
    simp only [calculateCompoundInterest]
    rw [if_pos hc1]
    norm_num
  have hc2 : truthy (some (P * (1 + r / 100 / n) ^ (n * t))) ∧
      truthy (some r) ∧ truthy (some t) := ⟨hFV.ne', hr.ne', ht.ne'⟩
  have h2 : calculateCompoundInterest none (some r) (some t) n
      (some (P * (1 + r / 100 / n) ^ (n * t))) =
      some ⟨P * (1 + r / 100 / n) ^ (n * t) / (1 + r / 100 / n) ^ (n * t), r, t, n,
        P * (1 + r / 100 / n) ^ (n * t) -
          P * (1 + r / 100 / n) ^ (n * t) / (1 + r / 100 / n) ^ (n * t),
        P * (1 + r / 100 / n) ^ (n * t)⟩ := by
    simp only [calculateCompoundInterest]
    rw [if_neg (by simp), if_pos hc2]
    norm_num
  have hprin : P * (1 + r / 100 / n) ^ (n * t) / (1 + r / 100 / n) ^ (n * t) = P :=
    mul_div_cancel_right₀ P hA.ne'
  refine ⟨_, _, h1, h2, ?_⟩
  simp only [hprin, sub_self, abs_zero]
  positivity

/-- C5 witness: the compound round-trip theorem at `P = 100, r = 5, t = 1,
n = 1`. -/
theorem calculateCompoundInterest_roundtrip_witness :
    (0:ℝ) < 100 ∧ (0:ℝ) < 5 ∧ (0:ℝ) < 1 ∧
    ∃ res₁ res₂ : CompoundInterestResult,
      calculateCompoundInterest (some 100) (some 5) (some 1) 1 none = some res₁ ∧
      calculateCompoundInterest none (some 5) (some 1) 1 (some res₁.futureValue) = some res₂ ∧
      |res₂.principal - 100| ≤ 1e-6 * |(100:ℝ)| :=
  ⟨by norm_num, by norm_num, by norm_num,
    calculateCompoundInterest_roundtrip 100 5 1 1
      (by norm_num) (by norm_num) (by norm_num) (by norm_num)⟩

/-- C10: whenever `1 + nominalRate/1200 > 0`, the `monthlyEffectiveRate`
field of `solveProblem64` equals `nominalRate / 12` (in percent): the
composition `(1+x)^12 - 1` followed by `(1+·)^(1/12) - 1` is the identity
on the monthly nominal rate `x = nominalRate/1200`.  (The source's
`monthlyInflationRate` and `realMonthlyRate`, lines 277–278, are dead code
and influence no output field; the embedding keeps them as unused lets.) -/
theorem solveProblem64_monthlyEffectiveRate_id
    (nominalRate initialInvestment inflationRate firstWithdrawalValue : ℝ)
    (investmentYears withdrawalYears : ℕ)
    (h : (0:ℝ) < 1 + nominalRate / 100 / 12) :
    (solveProblem64 nominalRate initialInvestment inflationRate firstWithdrawalValue
      investmentYears withdrawalYears).monthlyEffectiveRate = nominalRate / 12 := by
  have key : ((1 : ℝ) + ((1 + nominalRate / 100 / 12) ^ (12:ℕ) - 1)) ^ ((1:ℝ)/12) - 1
      = nominalRate / 100 / 12 := by
    have h1 : (1 : ℝ) + ((1 + nominalRate / 100 / 12) ^ (12:ℕ) - 1)
        = (1 + nominalRate / 100 / 12) ^ (12:ℕ) := by ring
    rw [h1, ← Real.rpow_natCast (1 + nominalRate / 100 / 12) 12,
      ← Real.rpow_mul h.le]
    norm_num
  simp only [solveProblem64]
  rw [key]
  ring

/-- C10 witness: the identity applied at the default inputs of
`solveProblem64`, where `1 + 12/1200 > 0`. -/
theorem solveProblem64_monthlyEffectiveRate_id_witness :
    (0:ℝ) < 1 + 12 / 100 / 12 ∧
    (solveProblem64 12 10000 8 5000 40 20).monthlyEffectiveRate = 12 / 12 :=
  ⟨by norm_num,
    solveProblem64_monthlyEffectiveRate_id 12 10000 8 5000 40 20 (by norm_num)⟩

/-- Shared helper: the twelfth root (as `rpow (1/12)`) of a twelfth power of
a nonnegative real. -/
lemma pow12_rpow_twelfth {x : ℝ} (hx : 0 ≤ x) :
    ((x ^ (12:ℕ) : ℝ)) ^ ((1:ℝ)/12) = x := by
  rw [← Real.rpow_natCast x 12, ← Real.rpow_mul hx]
  norm_num

/-- C3: `solveProblem64` at its default arguments returns
`effectiveAnnualRate` within `1e-4` of `12.6825` (the exact value is
`((101/100)^12 - 1) * 100 ≈ 12.68250301`) and a strictly positive
`firstPayment` (every value of the real-number model is finite). -/
theorem solveProblem64_defaults :
    |(solveProblem64 12 10000 8 5000 40 20).effectiveAnnualRate - 12.6825| < 1e-4 ∧
    0 < (solveProblem64 12 10000 8 5000 40 20).firstPayment := by
  constructor
  · simp only [solveProblem64]
    rw [abs_lt]
    norm_num
  · have hEm : (1:ℝ) + (((1:ℝ) + ((1 + 12/100/12)^(12:ℕ) - 1)) ^ ((1:ℝ)/12) - 1)
        = 101/100 := by
      have h1 : (1:ℝ) + ((1 + 12/100/12)^(12:ℕ) - 1) = (101/100 : ℝ)^(12:ℕ) := by
        norm_num
      rw [h1, pow12_rpow_twelfth (by norm_num : (0:ℝ) ≤ 101/100)]
      norm_num
    simp only [solveProblem64]
    rw [hEm]
    rw [show (1:ℝ) + ((1 + 12/100/12)^(12:ℕ) - 1) = (101/100 : ℝ)^(12:ℕ) from by norm_num]
    have hA : (0:ℝ) < 5000 * (1 + 8/100)^40 := by positivity
    have hterm : ∀ m ∈ Icc 1 (20*12),
        (5000:ℝ) * (1 + 8/100)^40 / (101/100)^(20*12) ≤
          5000 * (1 + 8/100)^40 * (1 + 8/100)^(yearNumber m - 1) / (101/100)^m := by
      intro m hm
      have hmem := mem_Icc.mp hm
      have h1 : (1:ℝ) ≤ (1 + 8/100)^(yearNumber m - 1) := one_le_pow₀ (by norm_num)
      have h2 : ((101:ℝ)/100)^m ≤ (101/100)^(20*12) :=
        pow_le_pow_right₀ (by norm_num) hmem.2
      exact div_le_div₀ (by positivity) (le_mul_of_one_le_right hA.le h1)
        (by positivity) h2
    have hsum := Finset.card_nsmul_le_sum (Icc 1 (20*12)) _ _ hterm
    rw [Nat.card_Icc] at hsum
    have hsum' : (240:ℝ) * (5000 * (1 + 8/100)^40 / (101/100)^(20*12)) ≤
        ∑ m in Icc 1 (20*12),
          5000 * (1 + 8/100)^40 * (1 + 8/100)^(yearNumber m - 1) / (101/100)^m := by
      simpa [nsmul_eq_mul] using hsum
    have hlt : (10000:ℝ) * ((101/100)^(12:ℕ))^40 <
        240 * (5000 * (1 + 8/100)^40 / (101/100)^(20*12)) := by
      norm_num
    have haF : 0 < ∑ m in Icc 1 (40*12),
        ((1:ℝ) + 8/100)^(yearNumber m - 1) * (101/100)^(40*12 - m) := by
      apply Finset.sum_pos
      · intro i _
        positivity
      · exact ⟨1, by norm_num⟩
    exact div_pos (sub_pos.mpr (lt_of_lt_of_le hlt hsum')) haF
